import Mathlib

/-!
A shallow embedding of the game-rules engine in
`backend/app/services/game_logic.py` (class `GameSession`), together with
proofs about its behaviour.

Modelling conventions:
* Python `uuid.UUID` values are modelled as `Nat` (an opaque identifier);
  the library codecs `str`/`uuid.UUID` used by serialization are passed in
  as explicit function parameters.
* Python `datetime` values are likewise modelled as `Nat` timestamps; the
  `datetime.now(timezone.utc)` read in `_touch_updated_at` becomes an
  explicit `now` argument threaded through every mutating operation.
* `random.shuffle` becomes an explicit function argument `sh`; theorems
  that depend on it assume only that it permutes its input.
* Python `dict`s become association lists (`List (k × v)`), preserving
  insertion order as Python dicts do.
* A method that can `raise` returns `Except String _`; raising before any
  mutation corresponds to returning `.error` (the original object is
  untouched, as in Python where the exception propagates).
-/

namespace SecretHitlerWeb

/-- `GameMode` from `backend/app/models/lobby.py`: a two-member string enum. -/
inductive GameMode
  | NORMAL
  | XL
deriving DecidableEq, Repr

/-- The string value of a `GameMode` member (`GameMode(str, Enum)`). -/
def GameMode.value : GameMode → String
  | .NORMAL => "Normal"
  | .XL => "XL"

-- The `GamePhase` constants of `game_logic.py`.
namespace GamePhase

def LOBBY : String := "lobby"

def STARTING : String := "starting"

def NOMINATION : String := "nomination"

def VOTING : String := "voting"

def LEGISLATIVE_PRESIDENT_DISCARD : String := "legislative_president_discard"

def LEGISLATIVE_CHANCELLOR_ENACT : String := "legislative_chancellor_enact"

def EXECUTIVE_ACTION : String := "executive_action"

def POST_ACTION : String := "post_action"

def FINISHED : String := "finished"

end GamePhase

/-- The `last_government` dictionary: keys `"president"` and `"chancellor"`,
values optional player ids. -/
structure LastGovernment where
  president : Option Nat
  chancellor : Option Nat
deriving DecidableEq, Repr

/-- The mutable state of a `GameSession` object: one field per attribute set
in `GameSession.__init__`. -/
structure GameSession where
  game_id : Nat
  initial_player_ids : List Nat
  players : List Nat
  mode : GameMode
  created_at : Nat
  updated_at : Nat
  status : String
  roles : List (Nat × String)
  policies : List String
  discard_pile : List String
  enacted_policies : List (String × Nat)
  liberal_track_bonuses_used : List Bool
  fascist_track_bonuses_used : List Bool
  communist_track_bonuses_used : List Bool
  state : String
  president_index : Option Nat
  president_id : Option Nat
  chancellor_candidate_id : Option Nat
  chancellor_id : Option Nat
  votes : List (Nat × Bool)
  election_tracker : Nat
  last_government : LastGovernment
  policies_drawn_for_legislative : List String
  policies_for_chancellor : List String
  executed_players : List Nat
  player_connections : List (Nat × String)
  anarchy_execution_available : Bool
  propaganda_used_this_round : Bool
  vonc_available_this_round : Bool
deriving DecidableEq, Repr

/-- `GameSession.__init__`: validates the player count (5..15 inclusive,
else `ValueError`) and sets every attribute to its initial value. -/
def GameSession.init (game_id : Nat) (player_ids : List Nat) (mode : GameMode)
    (now : Nat) : Except String GameSession :=
  if ¬ (5 ≤ player_ids.length ∧ player_ids.length ≤ 15) then
    .error "Invalid number of players. Must be between 5 and 15."
  else
    .ok
      { game_id := game_id
        initial_player_ids := player_ids
        players := player_ids
        mode := mode
        created_at := now
        updated_at := now
        status := GamePhase.STARTING
        roles := []
        policies := []
        discard_pile := []
        enacted_policies :=
          [("Liberal", 0), ("Fascist", 0), ("Communist", 0), ("Anarchist", 0),
            ("Anti Fascist", 0), ("Anti Communist", 0)]
        liberal_track_bonuses_used := List.replicate 5 false
        fascist_track_bonuses_used := List.replicate 6 false
        communist_track_bonuses_used := List.replicate 6 false
        state := GamePhase.STARTING
        president_index := none
        president_id := none
        chancellor_candidate_id := none
        chancellor_id := none
        votes := []
        election_tracker := 0
        last_government := { president := none, chancellor := none }
        policies_drawn_for_legislative := []
        policies_for_chancellor := []
        executed_players := []
        player_connections := []
        anarchy_execution_available := true
        propaganda_used_this_round := true
        vonc_available_this_round := true }

/-- `GameSession._reshuffle_deck`: raises if the discard pile is empty,
otherwise extends the deck with the discard pile, empties the discard pile
and shuffles the deck (`sh` is `random.shuffle`'s outcome). -/
def GameSession.reshuffle_deck (sh : List String → List String) (now : Nat)
    (g : GameSession) : Except String GameSession :=
  if g.discard_pile = [] then
    .error "Cannot reshuffle deck: discard pile is empty."
  else
    .ok { g with
          policies := sh (g.policies ++ g.discard_pile)
          discard_pile := []
          updated_at := now }

/-- `GameSession.draw_policies`: if the deck holds fewer than `count` cards,
first checks deck+discard suffices (else raises) and reshuffles; then
removes the first `count` cards of the deck and returns them. -/
def GameSession.draw_policies (sh : List String → List String) (now : Nat)
    (g : GameSession) (count : Nat) : Except String (List String × GameSession) :=
  let pre : Except String GameSession :=
    if g.policies.length < count then
      if g.policies.length + g.discard_pile.length < count then
        .error "Cannot draw policies: not enough cards remaining even after reshuffle."
      else
        g.reshuffle_deck sh now
    else
      .ok g
  match pre with
  | .error e => .error e
  | .ok g1 =>
      .ok (g1.policies.take count,
        { g1 with policies := g1.policies.drop count, updated_at := now })

/-- `GameSession.initialize_deck`: builds the mode-specific card list (for
`XL`, the composition also depends on the player count), shuffles it into
`policies` and empties the discard pile. -/
def GameSession.initialize_deck (sh : List String → List String) (now : Nat)
    (g : GameSession) : GameSession :=
  let deck : List String :=
    match g.mode with
    | .NORMAL => List.replicate 6 "Liberal" ++ List.replicate 11 "Fascist"
    | .XL =>
        if g.players.length ≤ 9 then
          List.replicate 8 "Communist" ++ List.replicate 6 "Liberal" ++
            List.replicate 9 "Fascist"
        else
          List.replicate 1 "Anti Fascist" ++ List.replicate 1 "Anti Communist" ++
            List.replicate 7 "Communist" ++ List.replicate 6 "Liberal" ++
            List.replicate 9 "Fascist" ++ List.replicate 2 "Anarchist"
  { g with policies := sh deck, discard_pile := [], updated_at := now }

/-- The role list `roles_to_assign` computed by `GameSession.assign_roles`
before shuffling, as a function of mode and player count.  Errors are the
`ValueError` raised on negative XL liberal counts.  In `XL` the subtraction
Python performs on `int` is carried out on `Int` before conversion; in
`NORMAL` the truncating `Nat` subtractions coincide with Python's `int`
arithmetic for every `player_count`, because `max 1 _` clamps the fascist
count wherever Python's value would be nonpositive and a negative Python
liberal count yields the empty list exactly as `List.replicate 0` does. -/
def rolesToAssign (mode : GameMode) (player_count : Nat) :
    Except String (List String) :=
  match mode with
  | .NORMAL =>
      let fascist_count := max 1 ((player_count - 1) / 2 - 1)
      let liberal_count := player_count - fascist_count - 1
      .ok (List.replicate liberal_count "Liberal" ++
        List.replicate fascist_count "Fascist" ++ ["Hitler"])
  | .XL =>
      let fascists_count : Nat := if 5 ≤ player_count then max 1 ((player_count - 3) / 3) else 0
      let communists_count : Nat := if 5 ≤ player_count then max 1 (player_count / 4) else 0
      let capitalist_count : Nat := if 10 < player_count then 1 else 0
      let anarchist_count : Nat := if 9 < player_count then 1 else 0
      let monarchist_count : Nat := if 12 < player_count then 1 else 0
      let hitler_count : Nat := 1
      let liberals_count : Int := (player_count : Int) -
        ((fascists_count : Int) + communists_count + capitalist_count +
          anarchist_count + monarchist_count + hitler_count)
      if liberals_count < 0 then
        .error "Calculated negative liberals in XL mode."
      else
        .ok (List.replicate liberals_count.toNat "Liberal" ++
          List.replicate fascists_count "Fascist" ++
          List.replicate communists_count "Communist" ++
          List.replicate capitalist_count "Capitalist" ++
          List.replicate anarchist_count "Anarchist" ++
          List.replicate monarchist_count "Monarchist" ++ ["Hitler"])

/-- `GameSession.assign_roles`: raises without players; builds the role list
for the mode; raises on a roles/player-count mismatch; then zips a shuffled
copy of the players with the shuffled role list into the `roles` mapping.
`shR` and `shP` are the outcomes of the two `random.shuffle` calls. -/
def GameSession.assign_roles (shR : List String → List String)
    (shP : List Nat → List Nat) (now : Nat) (g : GameSession) :
    Except String GameSession :=
  if g.players = [] then
    .error "Cannot assign roles without players."
  else
    match rolesToAssign g.mode g.players.length with
    | .error e => .error e
    | .ok roles_to_assign =>
        if roles_to_assign.length ≠ g.players.length then
          .error "Mismatch between roles assigned and player count."
        else
          let shuffled_roles := shR roles_to_assign
          let shuffled_players := shP g.players
          .ok { g with
                roles := shuffled_players.zip shuffled_roles
                updated_at := now }

/-- The player-id list that `GameSession.get_eligible_chancellor_candidates`
stringifies: an empty list without a sitting president, otherwise the
players that are not in the `ineligible` set.  The set is built exactly as
in the source: the president always; for `len(self.players) > 5` the last
successful president and chancellor, otherwise only the last successful
chancellor; and every executed player. -/
def GameSession.eligible_chancellor_ids (g : GameSession) : List Nat :=
  match g.president_id with
  | none => []
  | some pres =>
      let player_count := g.players.length
      let last_pres := g.last_government.president
      let last_chanc := g.last_government.chancellor
      let ineligible : List Nat :=
        [pres] ++
          (if 5 < player_count then
            (match last_pres with | some lp => [lp] | none => []) ++
              (match last_chanc with | some lc => [lc] | none => [])
          else
            (match last_chanc with | some lc => [lc] | none => [])) ++
          g.executed_players
      g.players.filter (fun p => decide (¬ p ∈ ineligible))

/-- `GameSession.get_eligible_chancellor_candidates`: the eligible player
ids rendered through `str` (the uuid-to-string codec `uEnc`). -/
def GameSession.get_eligible_chancellor_candidates (uEnc : Nat → String)
    (g : GameSession) : List String :=
  g.eligible_chancellor_ids.map uEnc

/-- `GameSession.start_game_flow`: raises before roles and deck exist, seats
`players[0]` as president, moves to the nomination phase and returns the
`election_started` event payload (president and eligible chancellors). -/
def GameSession.start_game_flow (uEnc : Nat → String) (now : Nat)
    (g : GameSession) : Except String (GameSession × (String × List String)) :=
  if g.roles = [] ∨ g.policies = [] then
    .error "Cannot start game flow before assigning roles and initializing deck."
  else
    match g.players with
    | [] => .error "IndexError: list index out of range"
    | p :: _ =>
        let g1 := { g with
          president_index := some 0
          president_id := some p
          state := GamePhase.NOMINATION
          updated_at := now }
        .ok (g1, (uEnc p, g1.get_eligible_chancellor_candidates uEnc))

/-- The serialized snapshot produced by `GameSession.serialize_state`: the
field dictionary minus `player_connections`, with UUIDs and datetimes
rendered into the wire type `S` (Python `str`). -/
structure Snapshot (S : Type) where
  game_id : S
  initial_player_ids : List S
  players : List S
  mode : GameMode
  created_at : S
  updated_at : S
  status : String
  roles : List (S × String)
  policies : List String
  discard_pile : List String
  enacted_policies : List (String × Nat)
  liberal_track_bonuses_used : List Bool
  fascist_track_bonuses_used : List Bool
  communist_track_bonuses_used : List Bool
  state : String
  president_index : Option Nat
  president_id : Option S
  chancellor_candidate_id : Option S
  chancellor_id : Option S
  votes : List (S × Bool)
  election_tracker : Nat
  last_government_president : Option S
  last_government_chancellor : Option S
  policies_drawn_for_legislative : List String
  policies_for_chancellor : List String
  executed_players : List S
  anarchy_execution_available : Bool
  propaganda_used_this_round : Bool
  vonc_available_this_round : Bool
deriving DecidableEq, Repr

/-- `GameSession.serialize_state`: touches `updated_at` (to `now`), then
copies every field except `player_connections` into the snapshot,
stringifying UUIDs (`uEnc`), datetimes (`dtEnc`), the UUIDs inside lists,
and the UUID keys/values inside dictionaries, exactly as the `isinstance`
dispatch in the source does for each field's runtime type.  The first
component is the mutated session (Python mutates `self` in place). -/
def GameSession.serialize_state {S : Type} (uEnc : Nat → S) (dtEnc : Nat → S)
    (now : Nat) (g : GameSession) : GameSession × Snapshot S :=
  let g1 := { g with updated_at := now }
  (g1,
    { game_id := uEnc g1.game_id
      initial_player_ids := g1.initial_player_ids.map uEnc
      players := g1.players.map uEnc
      mode := g1.mode
      created_at := dtEnc g1.created_at
      updated_at := dtEnc g1.updated_at
      status := g1.status
      roles := g1.roles.map (fun kv => (uEnc kv.1, kv.2))
      policies := g1.policies
      discard_pile := g1.discard_pile
      enacted_policies := g1.enacted_policies
      liberal_track_bonuses_used := g1.liberal_track_bonuses_used
      fascist_track_bonuses_used := g1.fascist_track_bonuses_used
      communist_track_bonuses_used := g1.communist_track_bonuses_used
      state := g1.state
      president_index := g1.president_index
      president_id := g1.president_id.map uEnc
      chancellor_candidate_id := g1.chancellor_candidate_id.map uEnc
      chancellor_id := g1.chancellor_id.map uEnc
      votes := g1.votes.map (fun kv => (uEnc kv.1, kv.2))
      election_tracker := g1.election_tracker
      last_government_president := g1.last_government.president.map uEnc
      last_government_chancellor := g1.last_government.chancellor.map uEnc
      policies_drawn_for_legislative := g1.policies_drawn_for_legislative
      policies_for_chancellor := g1.policies_for_chancellor
      executed_players := g1.executed_players.map uEnc
      anarchy_execution_available := g1.anarchy_execution_available
      propaganda_used_this_round := g1.propaganda_used_this_round
      vonc_available_this_round := g1.vonc_available_this_round })

/-- `GameSession.deserialize_state`: rebuilds a session from a snapshot,
decoding UUIDs (`uDec`) and datetimes (`dtDec`) for exactly the keys the
source's per-key branches convert, passing everything else through, and
initializing the non-persistent `player_connections` to the empty dict. -/
def GameSession.deserialize_state {S : Type} (uDec : S → Nat) (dtDec : S → Nat)
    (snap : Snapshot S) : GameSession :=
  { game_id := uDec snap.game_id
    initial_player_ids := snap.initial_player_ids.map uDec
    players := snap.players.map uDec
    mode := snap.mode
    created_at := dtDec snap.created_at
    updated_at := dtDec snap.updated_at
    status := snap.status
    roles := snap.roles.map (fun kv => (uDec kv.1, kv.2))
    policies := snap.policies
    discard_pile := snap.discard_pile
    enacted_policies := snap.enacted_policies
    liberal_track_bonuses_used := snap.liberal_track_bonuses_used
    fascist_track_bonuses_used := snap.fascist_track_bonuses_used
    communist_track_bonuses_used := snap.communist_track_bonuses_used
    state := snap.state
    president_index := snap.president_index
    president_id := snap.president_id.map uDec
    chancellor_candidate_id := snap.chancellor_candidate_id.map uDec
    chancellor_id := snap.chancellor_id.map uDec
    votes := snap.votes.map (fun kv => (uDec kv.1, kv.2))
    election_tracker := snap.election_tracker
    last_government :=
      { president := snap.last_government_president.map uDec
        chancellor := snap.last_government_chancellor.map uDec }
    policies_drawn_for_legislative := snap.policies_drawn_for_legislative
    policies_for_chancellor := snap.policies_for_chancellor
    executed_players := snap.executed_players.map uDec
    player_connections := []
    anarchy_execution_available := snap.anarchy_execution_available
    propaganda_used_this_round := snap.propaganda_used_this_round
    vonc_available_this_round := snap.vonc_available_this_round }

/-- Modelled from the spec: `discard(tokens)` appends tokens to the discard
pile.  The repository declares `discard_pile` and lists the
president/chancellor discard methods among the methods to add later, so
only this spec contract is available for the discard step. -/
def GameSession.discard_tokens (ts : List String) (g : GameSession) :
    GameSession :=
  { g with discard_pile := g.discard_pile ++ ts }

/-- Increment the count stored for `kind` in an association list, appending
a fresh entry when the kind is absent. -/
def bumpCount (kind : String) : List (String × Nat) → List (String × Nat)
  | [] => [(kind, 1)]
  | (k, v) :: rest =>
      if k = kind then (k, v + 1) :: rest else (k, v) :: bumpCount kind rest

/-- Modelled from the spec: enactment increments `enactedCounts[kind]`
(`chancellor_enact_policy` is listed in the source only as a method to add
later). -/
def GameSession.enact_policy (kind : String) (g : GameSession) : GameSession :=
  { g with enacted_policies := bumpCount kind g.enacted_policies }

/-- The total number of enacted policies of all kinds. -/
def GameSession.sumEnacted (g : GameSession) : Nat :=
  (g.enacted_policies.map Prod.snd).sum

/-- The card-count quantity of the spec's deck invariant:
`|deck| + |discard| + Σ enactedCounts`. -/
def GameSession.circulating (g : GameSession) : Nat :=
  g.policies.length + g.discard_pile.length + g.sumEnacted

/-- One deck operation of the spec's draw/discard/enact/reshuffle cycle,
acting on a session paired with the hand of cards a `draw` returned and
that discard/enact later consume. -/
inductive DeckOp
  | draw (n : Nat)
  | discardFirst
  | enactFirst
  | reshuffle
deriving DecidableEq, Repr

/-- Run one `DeckOp` on a session and the in-transit hand: `draw` appends
the drawn cards to the hand; `discardFirst`/`enactFirst` consume the front
card of the hand through the (spec-modelled) discard/enact operations;
`reshuffle` is `_reshuffle_deck`. -/
def runDeckOp (sh : List String → List String) (now : Nat) (op : DeckOp)
    (st : GameSession × List String) :
    Except String (GameSession × List String) :=
  match op, st with
  | .draw n, (g, hand) =>
      match g.draw_policies sh now n with
      | .error e => .error e
      | .ok (drawn, g1) => .ok (g1, hand ++ drawn)
  | .discardFirst, (g, hand) =>
      match hand with
      | [] => .ok (g, hand)
      | t :: rest => .ok (g.discard_tokens [t], rest)
  | .enactFirst, (g, hand) =>
      match hand with
      | [] => .ok (g, hand)
      | t :: rest => .ok (g.enact_policy t, rest)
  | .reshuffle, (g, hand) =>
      match g.reshuffle_deck sh now with
      | .error e => .error e
      | .ok g1 => .ok (g1, hand)

/-- Run a sequence of deck operations, stopping at the first error. -/
def runDeckOps (sh : List String → List String) (now : Nat) :
    List DeckOp → GameSession × List String →
    Except String (GameSession × List String)
  | [], st => .ok st
  | op :: ops, st =>
      match runDeckOp sh now op st with
      | .error e => .error e
      | .ok st1 => runDeckOps sh now ops st1

deriving instance DecidableEq for Except

/-- Whether an `Except` computation succeeded. -/
def isOkE {ε α : Type} : Except ε α → Bool
  | .ok _ => true
  | .error _ => false

/-- A freshly initialized 5-player `NORMAL` session (the literal that
`GameSession.init 0 [0,1,2,3,4] .NORMAL 0` produces), used as the base of
the concrete sessions below. -/
def baseSession : GameSession :=
  { game_id := 0
    initial_player_ids := [0, 1, 2, 3, 4]
    players := [0, 1, 2, 3, 4]
    mode := .NORMAL
    created_at := 0
    updated_at := 0
    status := GamePhase.STARTING
    roles := []
    policies := []
    discard_pile := []
    enacted_policies :=
      [("Liberal", 0), ("Fascist", 0), ("Communist", 0), ("Anarchist", 0),
        ("Anti Fascist", 0), ("Anti Communist", 0)]
    liberal_track_bonuses_used := List.replicate 5 false
    fascist_track_bonuses_used := List.replicate 6 false
    communist_track_bonuses_used := List.replicate 6 false
    state := GamePhase.STARTING
    president_index := none
    president_id := none
    chancellor_candidate_id := none
    chancellor_id := none
    votes := []
    election_tracker := 0
    last_government := { president := none, chancellor := none }
    policies_drawn_for_legislative := []
    policies_for_chancellor := []
    executed_players := []
    player_connections := []
    anarchy_execution_available := true
    propaganda_used_this_round := true
    vonc_available_this_round := true }

/-- A session whose deck holds the full 17-card `NORMAL` composition. -/
def deckSession : GameSession :=
  { baseSession with
    policies := List.replicate 6 "Liberal" ++ List.replicate 11 "Fascist" }

/-- A session mid-game with 2 cards in the deck and 6 in the discard pile
(end-to-end scenario C of the spec). -/
def lowDeckSession : GameSession :=
  { baseSession with
    policies := ["Liberal", "Fascist"]
    discard_pile := ["Fascist", "Fascist", "Liberal", "Liberal", "Fascist", "Fascist"] }

/-- A session with only 2 cards left in deck and discard combined. -/
def exhaustedSession : GameSession :=
  { baseSession with
    policies := ["Liberal"]
    discard_pile := ["Fascist"] }

/-- A 6-player session with one executed player (so 5 players are living),
a sitting president and a recorded last successful government. -/
def sixPlayerSession : GameSession :=
  { baseSession with
    initial_player_ids := [0, 1, 2, 3, 4, 5]
    players := [0, 1, 2, 3, 4, 5]
    president_id := some 0
    last_government := { president := some 1, chancellor := some 2 }
    executed_players := [3] }

/-- A 9-player `XL` session. -/
def xl9Session : GameSession :=
  { baseSession with
    mode := .XL
    initial_player_ids := [0, 1, 2, 3, 4, 5, 6, 7, 8]
    players := [0, 1, 2, 3, 4, 5, 6, 7, 8] }

/-- A 10-player `XL` session. -/
def xl10Session : GameSession :=
  { baseSession with
    mode := .XL
    initial_player_ids := [0, 1, 2, 3, 4, 5, 6, 7, 8, 9]
    players := [0, 1, 2, 3, 4, 5, 6, 7, 8, 9] }

/-- A session mid-game: roles already assigned, deck live, nomination
phase. -/
def midGameSession : GameSession :=
  { baseSession with
    roles := [(0, "Hitler"), (1, "Liberal"), (2, "Liberal"), (3, "Liberal"), (4, "Fascist")]
    policies := ["Liberal", "Fascist", "Fascist", "Liberal"]
    state := GamePhase.NOMINATION
    president_index := some 0
    president_id := some 0 }

/-- A degenerate session whose player list shrank to a single player: the
one reachable way to hit the roles/player-count mismatch guard of
`assign_roles` (for 1 player the `NORMAL` table still emits a Fascist and
a Hitler, 2 roles). -/
def soloPlayerSession : GameSession :=
  { baseSession with
    initial_player_ids := [0]
    players := [0] }

theorem isOkE_exists {ε α : Type} {e : Except ε α} (h : isOkE e = true) :
    ∃ x, e = .ok x := by
  cases e with
  | ok x => exact ⟨x, rfl⟩
  | error _ => simp [isOkE] at h

/-- C9: creating a `GameSession` with a player list of size outside 5..15
raises a `ValueError` and produces no session, while any size within 5..15
succeeds and records the supplied player order unchanged (both in
`players` and `initial_player_ids`). -/
theorem init_validates_player_count :
    (∀ (gid : Nat) (ids : List Nat) (mode : GameMode) (now : Nat),
      ids.length < 5 ∨ 15 < ids.length →
      GameSession.init gid ids mode now =
        .error "Invalid number of players. Must be between 5 and 15.") ∧
    (∀ (gid : Nat) (ids : List Nat) (mode : GameMode) (now : Nat),
      5 ≤ ids.length → ids.length ≤ 15 →
      ∃ g : GameSession, GameSession.init gid ids mode now = .ok g ∧
        g.players = ids ∧ g.initial_player_ids = ids) := by
  constructor
  · intro gid ids mode now h
    have hcond : ¬ (5 ≤ ids.length ∧ ids.length ≤ 15) := by omega
    simp [GameSession.init, hcond]
  · intro gid ids mode now h5 h15
    have hcond : 5 ≤ ids.length ∧ ids.length ≤ 15 := ⟨h5, h15⟩
    simp only [GameSession.init, if_neg (not_not_intro hcond)]
    exact ⟨_, rfl, rfl, rfl⟩

theorem init_validates_player_count_witness :
    (GameSession.init 7 [0, 1, 2] .NORMAL 0 =
      .error "Invalid number of players. Must be between 5 and 15.") ∧
    (∃ g : GameSession, GameSession.init 7 [0, 1, 2, 3, 4] .XL 0 = .ok g ∧
      g.players = [0, 1, 2, 3, 4] ∧ g.initial_player_ids = [0, 1, 2, 3, 4]) :=
  ⟨init_validates_player_count.1 7 [0, 1, 2] .NORMAL 0 (by decide),
    init_validates_player_count.2 7 [0, 1, 2, 3, 4] .XL 0 (by decide) (by decide)⟩

/-- C2: when deck and discard together hold fewer than `count` cards,
`draw_policies` raises its insufficient-cards `RuntimeError` before any
mutation, so both piles are exactly as they were (the exception is raised
before `_reshuffle_deck` and before the deck slice is taken, so the
returned computation carries no mutated state). -/
theorem draw_policies_insufficient_is_error (sh : List String → List String)
    (now : Nat) (g : GameSession) (n : Nat)
    (h : g.policies.length + g.discard_pile.length < n) :
    g.draw_policies sh now n =
      .error "Cannot draw policies: not enough cards remaining even after reshuffle." := by
  have hp : g.policies.length < n := by omega
  simp [GameSession.draw_policies, hp, h]

theorem draw_policies_insufficient_is_error_witness :
    exhaustedSession.draw_policies id 0 3 =
      .error "Cannot draw policies: not enough cards remaining even after reshuffle." :=
  draw_policies_insufficient_is_error id 0 exhaustedSession 3 (by decide)

/-- C10: `serialize_state` is not a pure read: it first rewrites
`updated_at` to the current clock value, the produced snapshot carries the
new timestamp, all fields other than `updated_at` are unchanged, and when
the clock has moved since the last touch the session's `updated_at` after
the call differs from its value before. -/
theorem serialize_state_touches_updated_at {S : Type} (uEnc dtEnc : Nat → S)
    (now : Nat) (g : GameSession) :
    (g.serialize_state uEnc dtEnc now).1 = { g with updated_at := now } ∧
    (g.serialize_state uEnc dtEnc now).2.updated_at = dtEnc now ∧
    (g.updated_at ≠ now →
      (g.serialize_state uEnc dtEnc now).1.updated_at ≠ g.updated_at) := by
  refine ⟨rfl, rfl, ?_⟩
  intro hne
  simpa [GameSession.serialize_state] using fun h => hne h.symm

theorem serialize_state_touches_updated_at_witness :
    ((deckSession.serialize_state (S := Nat) id id 42).1 =
      { deckSession with updated_at := 42 }) ∧
    ((deckSession.serialize_state (S := Nat) id id 42).2.updated_at = 42) ∧
    ((deckSession.serialize_state (S := Nat) id id 42).1.updated_at ≠
      deckSession.updated_at) := by
  obtain ⟨h1, h2, h3⟩ := serialize_state_touches_updated_at (S := Nat) id id 42 deckSession
  exact ⟨h1, h2, h3 (by decide)⟩

/-- C1: when the deck holds fewer than `n` cards but deck+discard hold at
least `n`, `draw_policies n` first runs `_reshuffle_deck` exactly once —
moving the whole discard pile into the deck, so the discard pile is empty
and the deck holds `|deck| + |discard|` cards before any card is removed —
and then returns exactly the first `n` cards of the reshuffled deck,
leaving a deck of `|deck| + |discard| - n` cards. -/
theorem draw_policies_reshuffles_once_then_draws
    (sh : List String → List String) (now : Nat) (g : GameSession) (n : Nat)
    (hsh : ∀ l : List String, (sh l).Perm l)
    (hlow : g.policies.length < n)
    (henough : n ≤ g.policies.length + g.discard_pile.length) :
    ∃ gr : GameSession,
      g.reshuffle_deck sh now = .ok gr ∧
      gr.discard_pile = [] ∧
      gr.policies.length = g.policies.length + g.discard_pile.length ∧
      g.draw_policies sh now n =
        .ok (gr.policies.take n,
          { gr with policies := gr.policies.drop n, updated_at := now }) ∧
      (gr.policies.take n).length = n ∧
      (gr.policies.drop n).length =
        g.policies.length + g.discard_pile.length - n := by
  have hd : g.discard_pile ≠ [] := by
    intro h0
    rw [h0] at henough
    simp only [List.length_nil] at henough
    omega
  have hlen : (sh (g.policies ++ g.discard_pile)).length =
      g.policies.length + g.discard_pile.length := by
    rw [(hsh _).length_eq, List.length_append]
  have hres : g.reshuffle_deck sh now =
      .ok { g with
            policies := sh (g.policies ++ g.discard_pile)
            discard_pile := []
            updated_at := now } := by
    simp [GameSession.reshuffle_deck, hd]
  have hno : ¬ (g.policies.length + g.discard_pile.length < n) := by omega
  refine ⟨_, hres, rfl, hlen, ?_, ?_, ?_⟩
  · simp only [GameSession.draw_policies, if_pos hlow, if_neg hno, hres]
  · rw [List.length_take, hlen]
    omega
  · rw [List.length_drop, hlen]

theorem draw_policies_reshuffles_once_then_draws_witness :
    (lowDeckSession.policies.length < 3 ∧
      3 ≤ lowDeckSession.policies.length + lowDeckSession.discard_pile.length) ∧
    (∃ gr : GameSession,
      lowDeckSession.reshuffle_deck id 0 = .ok gr ∧
      gr.discard_pile = [] ∧
      gr.policies.length =
        lowDeckSession.policies.length + lowDeckSession.discard_pile.length ∧
      lowDeckSession.draw_policies id 0 3 =
        .ok (gr.policies.take 3,
          { gr with policies := gr.policies.drop 3, updated_at := 0 }) ∧
      (gr.policies.take 3).length = 3 ∧
      (gr.policies.drop 3).length =
        lowDeckSession.policies.length + lowDeckSession.discard_pile.length - 3) ∧
    (Except.map (fun r => (r.2.policies.length, r.2.discard_pile.length))
      (lowDeckSession.draw_policies id 0 3) = .ok (5, 0)) :=
  ⟨⟨by decide, by decide⟩,
    draw_policies_reshuffles_once_then_draws id 0 lowDeckSession 3
      (fun l => List.Perm.refl l) (by decide) (by decide),
    by decide⟩

/-- C6: deserializing a serialized session restores every persistent field
of the (touched) session exactly — ids, players, mode, roles, piles,
enacted counts, phase fields, government fields, votes, tracker,
timestamps and mode flags — with UUIDs and datetimes decoded back to their
original values, while the transient `player_connections` binding comes
back as the empty mapping, whatever it was before. -/
theorem deserialize_serialize_roundtrip {S : Type}
    (uEnc dtEnc : Nat → S) (uDec dtDec : S → Nat) (now : Nat) (g : GameSession)
    (hu : ∀ m : Nat, uDec (uEnc m) = m) (hd : ∀ m : Nat, dtDec (dtEnc m) = m) :
    GameSession.deserialize_state uDec dtDec
        (g.serialize_state uEnc dtEnc now).2 =
      { (g.serialize_state uEnc dtEnc now).1 with player_connections := [] } := by
  simp [GameSession.serialize_state, GameSession.deserialize_state,
    List.map_map, Function.comp_def, hu, hd, Option.map_map]

theorem deserialize_serialize_roundtrip_witness :
    GameSession.deserialize_state (S := Nat) id id
        (midGameSession.serialize_state (S := Nat) id id 7).2 =
      { (midGameSession.serialize_state (S := Nat) id id 7).1 with
        player_connections := [] } :=
  deserialize_serialize_roundtrip (S := Nat) id id id id 7 midGameSession
    (fun _ => rfl) (fun _ => rfl)

theorem bumpCount_sum (kind : String) (l : List (String × Nat)) :
    ((bumpCount kind l).map Prod.snd).sum = (l.map Prod.snd).sum + 1 := by
  induction l with
  | nil => simp [bumpCount]
  | cons kv rest ih =>
      obtain ⟨k, v⟩ := kv
      by_cases h : k = kind
      · simp only [bumpCount, if_pos h, List.map_cons, List.sum_cons]
        omega
      · simp only [bumpCount, if_neg h, List.map_cons, List.sum_cons, ih]
        omega

/-- What a successful `draw_policies` does to the card counts: the drawn
cards leave the deck/discard circulation, and the enacted counts and roles
are untouched. -/
theorem draw_policies_ok_facts (sh : List String → List String) (now : Nat)
    (g : GameSession) (n : Nat) (drawn : List String) (g' : GameSession)
    (hsh : ∀ l : List String, (sh l).Perm l)
    (h : g.draw_policies sh now n = .ok (drawn, g')) :
    g'.policies.length + g'.discard_pile.length + drawn.length =
      g.policies.length + g.discard_pile.length ∧
    g'.enacted_policies = g.enacted_policies ∧
    g'.roles = g.roles := by
  by_cases h1 : g.policies.length < n
  · by_cases h2 : g.policies.length + g.discard_pile.length < n
    · simp [GameSession.draw_policies, h1, h2] at h
    · have hd : g.discard_pile ≠ [] := by
        intro h0
        rw [h0] at h2
        simp only [List.length_nil] at h2
        omega
      simp only [GameSession.draw_policies, if_pos h1, if_neg h2,
        GameSession.reshuffle_deck, if_neg hd, Except.ok.injEq, Prod.mk.injEq] at h
      obtain ⟨hdr, hg⟩ := h
      subst hdr
      subst hg
      have hlen : (sh (g.policies ++ g.discard_pile)).length =
          g.policies.length + g.discard_pile.length := by
        rw [(hsh _).length_eq, List.length_append]
      refine ⟨?_, rfl, rfl⟩
      simp only [List.length_drop, List.length_take, List.length_nil, hlen]
      omega
  · simp only [GameSession.draw_policies, if_neg h1, Except.ok.injEq,
      Prod.mk.injEq] at h
    obtain ⟨hdr, hg⟩ := h
    subst hdr
    subst hg
    refine ⟨?_, rfl, rfl⟩
    simp only [List.length_drop, List.length_take]
    omega

/-- One deck operation conserves `|deck| + |discard| + Σ enacted + |hand|`. -/
theorem runDeckOp_conserves (sh : List String → List String) (now : Nat)
    (op : DeckOp) (g : GameSession) (hand : List String) (g' : GameSession)
    (hand' : List String) (hsh : ∀ l : List String, (sh l).Perm l)
    (h : runDeckOp sh now op (g, hand) = .ok (g', hand')) :
    g'.circulating + hand'.length = g.circulating + hand.length := by
  cases op with
  | draw n =>
      simp only [runDeckOp] at h
      cases hdp : g.draw_policies sh now n with
      | error e => rw [hdp] at h; exact absurd h (by simp)
      | ok r =>
          obtain ⟨drawn, g1⟩ := r
          rw [hdp] at h
          simp only [Except.ok.injEq, Prod.mk.injEq] at h
          obtain ⟨hg, hh⟩ := h
          rw [← hg, ← hh]
          obtain ⟨hcards, hen, _⟩ :=
            draw_policies_ok_facts sh now g n drawn g1 hsh hdp
          simp only [GameSession.circulating, GameSession.sumEnacted, hen,
            List.length_append]
          omega
  | discardFirst =>
      cases hand with
      | nil =>
          simp only [runDeckOp, Except.ok.injEq, Prod.mk.injEq] at h
          obtain ⟨hg, hh⟩ := h
          subst hg
          subst hh
          rfl
      | cons t rest =>
          simp only [runDeckOp, GameSession.discard_tokens, Except.ok.injEq,
            Prod.mk.injEq] at h
          obtain ⟨hg, hh⟩ := h
          rw [← hg, ← hh]
          simp only [GameSession.circulating, GameSession.sumEnacted,
            List.length_append, List.length_cons, List.length_nil]
          omega
  | enactFirst =>
      cases hand with
      | nil =>
          simp only [runDeckOp, Except.ok.injEq, Prod.mk.injEq] at h
          obtain ⟨hg, hh⟩ := h
          subst hg
          subst hh
          rfl
      | cons t rest =>
          simp only [runDeckOp, GameSession.enact_policy, Except.ok.injEq,
            Prod.mk.injEq] at h
          obtain ⟨hg, hh⟩ := h
          rw [← hg, ← hh]
          simp only [GameSession.circulating, GameSession.sumEnacted,
            bumpCount_sum, List.length_cons]
          omega
  | reshuffle =>
      simp only [runDeckOp] at h
      by_cases hd : g.discard_pile = []
      · simp [GameSession.reshuffle_deck, hd] at h
      · simp only [GameSession.reshuffle_deck, if_neg hd, Except.ok.injEq,
          Prod.mk.injEq] at h
        obtain ⟨hg, hh⟩ := h
        subst hg
        subst hh
        simp only [GameSession.circulating, GameSession.sumEnacted,
          (hsh (g.policies ++ g.discard_pile)).length_eq, List.length_append,
          List.length_nil]
        omega

/-- C5 (amended): across every draw/discard/enact/reshuffle sequence the
quantity `|deck| + |discard| + Σ enactedCounts + |cards drawn and still in
hand|` is invariant.  The bare quantity `|deck| + |discard| + Σ enacted`
is *not* preserved by `draw_policies` itself: the drawn cards move to the
caller's hand, and only return to the tracked piles through the
(spec-modelled) discard and enact steps. -/
theorem deck_operations_conserve_count (sh : List String → List String)
    (now : Nat) (ops : List DeckOp) (g : GameSession) (hand : List String)
    (g' : GameSession) (hand' : List String)
    (hsh : ∀ l : List String, (sh l).Perm l)
    (h : runDeckOps sh now ops (g, hand) = .ok (g', hand')) :
    g'.circulating + hand'.length = g.circulating + hand.length := by
  induction ops generalizing g hand with
  | nil =>
      simp only [runDeckOps, Except.ok.injEq, Prod.mk.injEq] at h
      obtain ⟨hg, hh⟩ := h
      subst hg
      subst hh
      rfl
  | cons op ops ih =>
      simp only [runDeckOps] at h
      cases hop : runDeckOp sh now op (g, hand) with
      | error e => rw [hop] at h; exact absurd h (by simp)
      | ok st =>
          obtain ⟨g1, hand1⟩ := st
          rw [hop] at h
          have h1 := runDeckOp_conserves sh now op g hand g1 hand1 hsh hop
          have h2 := ih g1 hand1 h
          omega

theorem deck_operations_conserve_count_witness :
    ∃ (g' : GameSession) (hand' : List String),
      runDeckOps id 0
          [DeckOp.draw 3, DeckOp.discardFirst, DeckOp.enactFirst,
            DeckOp.discardFirst] (deckSession, []) = .ok (g', hand') ∧
      g'.circulating + hand'.length =
        deckSession.circulating + ([] : List String).length := by
  obtain ⟨⟨g', hand'⟩, hok⟩ := isOkE_exists
    (e := runDeckOps id 0
      [DeckOp.draw 3, DeckOp.discardFirst, DeckOp.enactFirst,
        DeckOp.discardFirst] (deckSession, [])) (by decide)
  exact ⟨g', hand', hok,
    deck_operations_conserve_count id 0
      [DeckOp.draw 3, DeckOp.discardFirst, DeckOp.enactFirst,
        DeckOp.discardFirst] deckSession [] g' hand'
      (fun l => List.Perm.refl l) hok⟩

/-- C5 counterexample: a single `draw_policies` call does *not* preserve
`|deck| + |discard| + Σ enactedCounts`: on a full 17-card `NORMAL` deck a
draw of 3 lowers the quantity from 17 to 14 (the drawn cards are returned
to the caller, not kept in any of the three tracked piles). -/
theorem draw_breaks_bare_circulating_quantity :
    deckSession.circulating = 17 ∧
    Except.map (fun r => r.2.circulating)
      (deckSession.draw_policies id 0 3) = .ok 14 := by
  exact ⟨by decide, by decide⟩

/-- C4 counterexample: in `sixPlayerSession` exactly 5 players are living
(player 3 of the 6 is executed), yet the last successful *president*
(player 1, alive, not the sitting president, not the last chancellor) is
excluded from chancellor candidacy — the source tests `len(self.players)`
(6, executed players included), not the living count the claim names. -/
theorem living_five_still_excludes_last_president :
    (sixPlayerSession.players.filter
      (fun p => decide (¬ p ∈ sixPlayerSession.executed_players))).length = 5 ∧
    sixPlayerSession.president_id = some 0 ∧
    sixPlayerSession.last_government.president = some 1 ∧
    sixPlayerSession.last_government.chancellor = some 2 ∧
    1 ∈ sixPlayerSession.players ∧
    1 ∉ sixPlayerSession.executed_players ∧
    1 ∉ sixPlayerSession.eligible_chancellor_ids := by decide

/-- C4 (amended): `get_eligible_chancellor_candidates` always excludes the
sitting president and every executed player; when the *total* player count
`len(self.players)` (executed players included) is greater than 5 it also
excludes both members of the last successful government, and when the
total count is at most 5 it additionally excludes only the last successful
chancellor — the last successful president stays eligible there unless
excluded for another reason.  Every candidate is drawn from `players`. -/
theorem eligible_chancellor_exclusions (g : GameSession) (pres : Nat)
    (hp : g.president_id = some pres) :
    pres ∉ g.eligible_chancellor_ids ∧
    (∀ e ∈ g.executed_players, e ∉ g.eligible_chancellor_ids) ∧
    (5 < g.players.length →
      (∀ lp, g.last_government.president = some lp →
        lp ∉ g.eligible_chancellor_ids) ∧
      (∀ lc, g.last_government.chancellor = some lc →
        lc ∉ g.eligible_chancellor_ids)) ∧
    (g.players.length ≤ 5 →
      (∀ lc, g.last_government.chancellor = some lc →
        lc ∉ g.eligible_chancellor_ids) ∧
      (∀ lp, g.last_government.president = some lp → lp ∈ g.players →
        lp ≠ pres → g.last_government.chancellor ≠ some lp →
        lp ∉ g.executed_players → lp ∈ g.eligible_chancellor_ids)) ∧
    (∀ q ∈ g.eligible_chancellor_ids, q ∈ g.players) ∧
    g.get_eligible_chancellor_candidates Nat.repr =
      g.eligible_chancellor_ids.map Nat.repr := by
  have hmem : ∀ q : Nat, q ∈ g.eligible_chancellor_ids ↔
      q ∈ g.players ∧ ¬ (q = pres ∨
        q ∈ (if 5 < g.players.length then
            (match g.last_government.president with
              | some lp => [lp] | none => []) ++
              (match g.last_government.chancellor with
                | some lc => [lc] | none => [])
          else
            (match g.last_government.chancellor with
              | some lc => [lc] | none => [])) ∨
        q ∈ g.executed_players) := by
    intro q
    simp [GameSession.eligible_chancellor_ids, hp, List.mem_filter,
      List.mem_append]
  refine ⟨?_, ?_, ?_, ?_, ?_, rfl⟩
  · intro hq
    exact ((hmem pres).1 hq).2 (Or.inl rfl)
  · intro e he hq
    exact ((hmem e).1 hq).2 (Or.inr (Or.inr he))
  · intro h6
    constructor
    · intro lp hlp hq
      refine ((hmem lp).1 hq).2 (Or.inr (Or.inl ?_))
      rw [if_pos h6, hlp]
      simp
    · intro lc hlc hq
      refine ((hmem lc).1 hq).2 (Or.inr (Or.inl ?_))
      rw [if_pos h6, hlc]
      cases hpm : g.last_government.president <;> simp
  · intro h5
    have h6 : ¬ 5 < g.players.length := by omega
    constructor
    · intro lc hlc hq
      refine ((hmem lc).1 hq).2 (Or.inr (Or.inl ?_))
      rw [if_neg h6, hlc]
      simp
    · intro lp hlp hmem2 hne hnc hnex
      refine (hmem lp).2 ⟨hmem2, ?_⟩
      rw [if_neg h6]
      rintro (h | h | h)
      · exact hne h
      · cases hcm : g.last_government.chancellor with
        | none => rw [hcm] at h; simp at h
        | some lc =>
            rw [hcm] at h
            simp at h
            rw [← h] at hcm
            exact hnc hcm
      · exact hnex h
  · intro q hq
    exact ((hmem q).1 hq).1

theorem eligible_chancellor_exclusions_witness :
    0 ∉ sixPlayerSession.eligible_chancellor_ids ∧
    3 ∉ sixPlayerSession.eligible_chancellor_ids ∧
    1 ∉ sixPlayerSession.eligible_chancellor_ids ∧
    2 ∉ sixPlayerSession.eligible_chancellor_ids := by
  obtain ⟨h1, h2, h3, _, _, _⟩ :=
    eligible_chancellor_exclusions sixPlayerSession 0 (by decide)
  obtain ⟨hlp, hlc⟩ := h3 (by decide)
  exact ⟨h1, h2 3 (by decide), hlp 1 (by decide), hlc 2 (by decide)⟩

/-- C8 counterexample: two `XL` sessions that differ only in player count
receive decks of different sizes from `initialize_deck` (23 cards for 9
players, 26 for 10), run here with the identity permutation as the
shuffle; the deck multiset is therefore not determined by the mode
alone. -/
theorem xl_deck_depends_on_player_count :
    xl9Session.mode = GameMode.XL ∧ xl10Session.mode = GameMode.XL ∧
    (xl9Session.initialize_deck id 0).policies.length = 23 ∧
    (xl10Session.initialize_deck id 0).policies.length = 26 := by decide

/-- C8 (amended): `initialize_deck` fills the deck with a shuffle
permutation of a fixed multiset determined by the mode and — in `XL` mode
only — the player count, and leaves the discard pile empty; in `NORMAL`
mode the multiset is exactly 17 tokens, 6 Liberal and 11 Fascist. -/
theorem initialize_deck_composition (sh : List String → List String)
    (now : Nat) (g : GameSession) (hsh : ∀ l : List String, (sh l).Perm l) :
    (g.initialize_deck sh now).discard_pile = [] ∧
    (g.mode = .NORMAL →
      (g.initialize_deck sh now).policies.Perm
        (List.replicate 6 "Liberal" ++ List.replicate 11 "Fascist") ∧
      (g.initialize_deck sh now).policies.length = 17 ∧
      (g.initialize_deck sh now).policies.count "Liberal" = 6 ∧
      (g.initialize_deck sh now).policies.count "Fascist" = 11) ∧
    (g.mode = .XL → g.players.length ≤ 9 →
      (g.initialize_deck sh now).policies.Perm
        (List.replicate 8 "Communist" ++ List.replicate 6 "Liberal" ++
          List.replicate 9 "Fascist")) ∧
    (g.mode = .XL → 9 < g.players.length →
      (g.initialize_deck sh now).policies.Perm
        (List.replicate 1 "Anti Fascist" ++ List.replicate 1 "Anti Communist" ++
          List.replicate 7 "Communist" ++ List.replicate 6 "Liberal" ++
          List.replicate 9 "Fascist" ++ List.replicate 2 "Anarchist")) := by
  refine ⟨rfl, ?_, ?_, ?_⟩
  · intro hm
    have hperm : (g.initialize_deck sh now).policies.Perm
        (List.replicate 6 "Liberal" ++ List.replicate 11 "Fascist") := by
      simp only [GameSession.initialize_deck, hm]
      exact hsh _
    refine ⟨hperm, ?_, ?_, ?_⟩
    · rw [hperm.length_eq]
      rfl
    · rw [hperm.count_eq]
      rfl
    · rw [hperm.count_eq]
      rfl
  · intro hm h9
    have h9' : g.players.length ≤ 9 := h9
    simp only [GameSession.initialize_deck, hm, if_pos h9']
    exact hsh _
  · intro hm h9
    have h9' : ¬ g.players.length ≤ 9 := by omega
    simp only [GameSession.initialize_deck, hm, if_neg h9']
    exact hsh _

theorem initialize_deck_composition_witness :
    (baseSession.initialize_deck id 0).discard_pile = [] ∧
    (baseSession.initialize_deck id 0).policies.length = 17 ∧
    (baseSession.initialize_deck id 0).policies.count "Liberal" = 6 ∧
    (baseSession.initialize_deck id 0).policies.count "Fascist" = 11 := by
  obtain ⟨h0, hN, _, _⟩ :=
    initialize_deck_composition id 0 baseSession (fun l => List.Perm.refl l)
  obtain ⟨_, h17, hL, hF⟩ := hN rfl
  exact ⟨h0, h17, hL, hF⟩

/-- The success shape of `assign_roles`: when the players list is nonempty
and the role table matches the player count, the call succeeds and stores
the zip of the shuffled players with the shuffled roles. -/
theorem assign_roles_ok (g : GameSession) (shR : List String → List String)
    (shP : List Nat → List Nat) (now : Nat) (rta : List String)
    (hne : g.players ≠ [])
    (hr : rolesToAssign g.mode g.players.length = .ok rta)
    (hlen : rta.length = g.players.length) :
    g.assign_roles shR shP now =
      .ok { g with roles := (shP g.players).zip (shR rta), updated_at := now } := by
  simp only [GameSession.assign_roles, if_neg hne, hr,
    if_neg (not_not_intro hlen)]

/-- For every supported population and either mode the role table succeeds,
has exactly the population's size and contains exactly one Hitler. -/
theorem rolesToAssign_spec (mode : GameMode) (n : Nat) (h5 : 5 ≤ n)
    (h15 : n ≤ 15) :
    ∃ rta : List String, rolesToAssign mode n = .ok rta ∧ rta.length = n ∧
      rta.count "Hitler" = 1 := by
  cases mode <;> (interval_cases n <;> exact ⟨_, rfl, by decide, by decide⟩)

/-- C3: for every population 5..15 and both modes, `assign_roles` succeeds
and gives exactly one role to every player — the mapping has one entry per
player, keyed (without duplicates) by a permutation of the full player
list — the role multiset has the population's size with exactly one
Hitler, and for 5 players in `NORMAL` mode it is exactly
{3 Liberal, 1 Fascist, 1 Hitler}; and whenever the computed role list does
not sum to the population, `assign_roles` raises instead of assigning. -/
theorem assign_roles_role_table :
    (∀ (g : GameSession) (shR : List String → List String)
      (shP : List Nat → List Nat) (now : Nat),
      5 ≤ g.players.length → g.players.length ≤ 15 → g.players.Nodup →
      (∀ l : List String, (shR l).Perm l) →
      (∀ l : List Nat, (shP l).Perm l) →
      ∃ (g' : GameSession) (rta : List String),
        rolesToAssign g.mode g.players.length = .ok rta ∧
        g.assign_roles shR shP now = .ok g' ∧
        g'.roles.length = g.players.length ∧
        (g'.roles.map Prod.fst).Perm g.players ∧
        (g'.roles.map Prod.fst).Nodup ∧
        (g'.roles.map Prod.snd).Perm rta ∧
        (g'.roles.map Prod.snd).count "Hitler" = 1 ∧
        (g.players.length = 5 → g.mode = .NORMAL →
          (g'.roles.map Prod.snd).Perm
            ["Liberal", "Liberal", "Liberal", "Fascist", "Hitler"])) ∧
    (∀ (g : GameSession) (shR : List String → List String)
      (shP : List Nat → List Nat) (now : Nat) (rta : List String),
      rolesToAssign g.mode g.players.length = .ok rta →
      rta.length ≠ g.players.length →
      ∃ e, g.assign_roles shR shP now = .error e) := by
  constructor
  · intro g shR shP now h5 h15 hnd hshR hshP
    obtain ⟨rta, hr, hlen, hH⟩ :=
      rolesToAssign_spec g.mode g.players.length h5 h15
    have hne : g.players ≠ [] := by
      intro h0
      rw [h0] at h5
      simp at h5
    have hok := assign_roles_ok g shR shP now rta hne hr hlen
    have hlp : (shP g.players).length = g.players.length := (hshP _).length_eq
    have hlr : (shR rta).length = g.players.length := by
      rw [(hshR _).length_eq, hlen]
    have hfst : ((shP g.players).zip (shR rta)).map Prod.fst = shP g.players :=
      List.map_fst_zip _ _ (by rw [hlp, hlr])
    have hsnd : ((shP g.players).zip (shR rta)).map Prod.snd = shR rta :=
      List.map_snd_zip _ _ (by rw [hlp, hlr])
    refine ⟨_, rta, hr, hok, ?_, ?_, ?_, ?_, ?_, ?_⟩
    · show ((shP g.players).zip (shR rta)).length = g.players.length
      rw [List.length_zip, hlp, hlr]
      omega
    · show (((shP g.players).zip (shR rta)).map Prod.fst).Perm g.players
      rw [hfst]
      exact hshP _
    · show (((shP g.players).zip (shR rta)).map Prod.fst).Nodup
      rw [hfst]
      exact ((hshP g.players).nodup_iff).2 hnd
    · show (((shP g.players).zip (shR rta)).map Prod.snd).Perm rta
      rw [hsnd]
      exact hshR _
    · show (((shP g.players).zip (shR rta)).map Prod.snd).count "Hitler" = 1
      rw [hsnd, (hshR rta).count_eq, hH]
    · intro hn5 hm
      show (((shP g.players).zip (shR rta)).map Prod.snd).Perm _
      rw [hsnd]
      have h₅ : rolesToAssign GameMode.NORMAL 5 =
          .ok ["Liberal", "Liberal", "Liberal", "Fascist", "Hitler"] := by decide
      rw [hm, hn5, h₅] at hr
      simp only [Except.ok.injEq] at hr
      subst hr
      exact hshR _
  · intro g shR shP now rta hr hne_len
    by_cases hne : g.players = []
    · exact ⟨"Cannot assign roles without players.",
        by simp [GameSession.assign_roles, hne]⟩
    · exact ⟨"Mismatch between roles assigned and player count.",
        by simp only [GameSession.assign_roles, if_neg hne, hr,
          if_pos hne_len]⟩

theorem assign_roles_role_table_witness :
    (∃ (g' : GameSession) (rta : List String),
      rolesToAssign baseSession.mode baseSession.players.length = .ok rta ∧
      baseSession.assign_roles id id 3 = .ok g' ∧
      g'.roles.length = baseSession.players.length ∧
      (g'.roles.map Prod.fst).Perm baseSession.players ∧
      (g'.roles.map Prod.fst).Nodup ∧
      (g'.roles.map Prod.snd).Perm rta ∧
      (g'.roles.map Prod.snd).count "Hitler" = 1 ∧
      (baseSession.players.length = 5 → baseSession.mode = .NORMAL →
        (g'.roles.map Prod.snd).Perm
          ["Liberal", "Liberal", "Liberal", "Fascist", "Hitler"])) ∧
    (∃ e, soloPlayerSession.assign_roles id id 3 = .error e) :=
  ⟨assign_roles_role_table.1 baseSession id id 3 (by decide) (by decide)
      (by decide) (fun l => List.Perm.refl l) (fun l => List.Perm.refl l),
    assign_roles_role_table.2 soloPlayerSession id id 3
      ["Fascist", "Hitler"] (by decide) (by decide)⟩

/-- C7 counterexample: `midGameSession` already has roles assigned and sits
in the nomination phase, yet a repeated `assign_roles` call is accepted —
it returns success and overwrites the roles mapping with a fresh
assignment instead of being rejected. -/
theorem assign_roles_rerun_not_rejected :
    midGameSession.state = GamePhase.NOMINATION ∧
    midGameSession.roles ≠ [] ∧
    isOkE (midGameSession.assign_roles id id 1) = true ∧
    Except.map (fun g' => g'.roles) (midGameSession.assign_roles id id 1) =
      .ok [(0, "Liberal"), (1, "Liberal"), (2, "Liberal"), (3, "Fascist"),
        (4, "Hitler")] ∧
    Except.map (fun g' => g'.roles) (midGameSession.assign_roles id id 1) ≠
      .ok midGameSession.roles := by decide

/-- `draw_policies` never touches the roles mapping. -/
theorem draw_policies_preserves_roles (sh : List String → List String)
    (now : Nat) (g : GameSession) (n : Nat) (drawn : List String)
    (g' : GameSession) (h : g.draw_policies sh now n = .ok (drawn, g')) :
    g'.roles = g.roles := by
  by_cases h1 : g.policies.length < n
  · by_cases h2 : g.policies.length + g.discard_pile.length < n
    · simp [GameSession.draw_policies, h1, h2] at h
    · have hd : g.discard_pile ≠ [] := by
        intro h0
        rw [h0] at h2
        simp only [List.length_nil] at h2
        omega
      simp only [GameSession.draw_policies, if_pos h1, if_neg h2,
        GameSession.reshuffle_deck, if_neg hd, Except.ok.injEq,
        Prod.mk.injEq] at h
      rw [← h.2]
  · simp only [GameSession.draw_policies, if_neg h1, Except.ok.injEq,
      Prod.mk.injEq] at h
    rw [← h.2]

/-- C7 (amended): once assigned, roles are rewritten by no exposed
transition other than `assign_roles` itself — `initialize_deck`,
`_reshuffle_deck`, `draw_policies` and `start_game_flow` all preserve the
roles mapping — but a repeated `assign_roles` call mid-game is *not*
rejected: whenever players remain and the role table matches, it succeeds
in any phase and replaces `roles` with a fresh shuffled assignment. -/
theorem roles_stable_except_assign_roles :
    (∀ (sh : List String → List String) (now : Nat) (g : GameSession),
      (g.initialize_deck sh now).roles = g.roles) ∧
    (∀ (sh : List String → List String) (now : Nat) (g g' : GameSession),
      g.reshuffle_deck sh now = .ok g' → g'.roles = g.roles) ∧
    (∀ (sh : List String → List String) (now : Nat) (g : GameSession)
      (n : Nat) (drawn : List String) (g' : GameSession),
      g.draw_policies sh now n = .ok (drawn, g') → g'.roles = g.roles) ∧
    (∀ (uEnc : Nat → String) (now : Nat) (g g' : GameSession)
      (ev : String × List String),
      g.start_game_flow uEnc now = .ok (g', ev) → g'.roles = g.roles) ∧
    (∀ (shR : List String → List String) (shP : List Nat → List Nat)
      (now : Nat) (g : GameSession) (rta : List String),
      g.players ≠ [] →
      rolesToAssign g.mode g.players.length = .ok rta →
      rta.length = g.players.length →
      g.assign_roles shR shP now =
        .ok { g with
              roles := (shP g.players).zip (shR rta)
              updated_at := now }) := by
  refine ⟨fun sh now g => rfl, ?_, draw_policies_preserves_roles, ?_, ?_⟩
  · intro sh now g g' h
    by_cases hd : g.discard_pile = []
    · simp [GameSession.reshuffle_deck, hd] at h
    · simp only [GameSession.reshuffle_deck, if_neg hd, Except.ok.injEq] at h
      rw [← h]
  · intro uEnc now g g' ev h
    by_cases h0 : g.roles = [] ∨ g.policies = []
    · simp [GameSession.start_game_flow, h0] at h
    · cases hps : g.players with
      | nil =>
          simp [GameSession.start_game_flow, h0, hps] at h
      | cons p rest =>
          simp only [GameSession.start_game_flow, if_neg h0, hps,
            Except.ok.injEq, Prod.mk.injEq] at h
          rw [← h.1]
  · intro shR shP now g rta hne hr hlen
    exact assign_roles_ok g shR shP now rta hne hr hlen

theorem roles_stable_except_assign_roles_witness :
    ((deckSession.initialize_deck id 0).roles = deckSession.roles) ∧
    (∃ g' : GameSession, lowDeckSession.reshuffle_deck id 0 = .ok g' ∧
      g'.roles = lowDeckSession.roles) ∧
    (∃ (drawn : List String) (g' : GameSession),
      deckSession.draw_policies id 0 3 = .ok (drawn, g') ∧
      g'.roles = deckSession.roles) ∧
    (∃ (g' : GameSession) (ev : String × List String),
      midGameSession.start_game_flow Nat.repr 2 = .ok (g', ev) ∧
      g'.roles = midGameSession.roles) ∧
    (midGameSession.assign_roles id id 1 =
      .ok { midGameSession with
            roles := (id midGameSession.players).zip
              (id ["Liberal", "Liberal", "Liberal", "Fascist", "Hitler"])
            updated_at := 1 }) := by
  obtain ⟨h1, h2, h3, h4, h5⟩ := roles_stable_except_assign_roles
  refine ⟨h1 id 0 deckSession, ?_, ?_, ?_,
    h5 id id 1 midGameSession ["Liberal", "Liberal", "Liberal", "Fascist", "Hitler"]
      (by decide) (by decide) (by decide)⟩
  · obtain ⟨g', hok⟩ := isOkE_exists
      (e := lowDeckSession.reshuffle_deck id 0) (by decide)
    exact ⟨g', hok, h2 id 0 lowDeckSession g' hok⟩
  · obtain ⟨⟨drawn, g'⟩, hok⟩ := isOkE_exists
      (e := deckSession.draw_policies id 0 3) (by decide)
    exact ⟨drawn, g', hok, h3 id 0 deckSession 3 drawn g' hok⟩
  · obtain ⟨⟨g', ev⟩, hok⟩ := isOkE_exists
      (e := midGameSession.start_game_flow Nat.repr 2) (by decide)
    exact ⟨g', ev, hok, h4 Nat.repr 2 midGameSession g' ev hok⟩

end SecretHitlerWeb
